import Mathlib

/-!
Shallow embedding of `ryzen_monitor_gui.py` (enesaltinkaya/ryzen_monitor).

The Python program wraps a native library (`libryzen_monitor.so`) behind
the class `RyzenMonitorLib` and renders each polled snapshot into Qt
widgets in `RyzenMonitorGUI.update_data`.  We model:

* CPython `float` values as `PyFloat` (a rational number or NaN);
* Python string formatting `f"{x:.Nf}"` as `pyFormat N x`, using
  round-half-to-even as CPython does;
* `int(x)` truncation (which raises `ValueError` on NaN) as `pyInt`;
* the ctypes structures as Lean structures (fields zero-initialised, as
  `ctypes` zero-initialises them);
* the external shared library as an oracle `ExternalLib` giving the
  return values and buffer contents of each foreign call;
* the wrapper state (`self.initialized` plus invocation counters for the
  foreign entry points) as `LibState`;
* the Qt widgets touched by `update_data` as `UIState`; `update_data`
  threads the widget state and stops at the first raised exception,
  exactly as an uncaught Python exception would.
-/

/-- A CPython float as used by this program: either NaN or a real
(modelled rational) value.  Infinities never arise in the claims under
study and are not modelled. -/
inductive PyFloat where
  | nan : PyFloat
  | val (q : ℚ) : PyFloat
deriving DecidableEq, Repr

/-- Decimal digit characters of `n`, most significant first
(fuel-indexed so that the kernel can evaluate it). -/
def natReprAux : ℕ → ℕ → List Char
  | 0, _ => []
  | fuel + 1, n =>
    if n < 10 then [Nat.digitChar n]
    else natReprAux fuel (n / 10) ++ [Nat.digitChar (n % 10)]

/-- Decimal representation of a natural number. -/
def natRepr (n : ℕ) : String :=
  String.mk (natReprAux (n + 1) n)

/-- Round the fraction `a / d` (for natural `a` and positive natural
`d`) to the nearest natural number, ties to even — the rounding
CPython's fixed-point formatting performs. -/
def rheNatDiv (a d : ℕ) : ℕ :=
  if d < 2 * (a % d) then a / d + 1
  else if 2 * (a % d) < d then a / d
  else if (a / d) % 2 = 0 then a / d else a / d + 1

/-- `formatFixed prec q` is CPython's `f"{q:.{prec}f}"` on a non-NaN
float value `q`: sign, integer digits, and `prec` fractional digits with
round-half-even.  The scaled magnitude `|q| * 10 ^ prec` is the fraction
`q.num.natAbs * 10 ^ prec` over `q.den`. -/
def formatFixed (prec : ℕ) (q : ℚ) : String :=
  let m := rheNatDiv (q.num.natAbs * 10 ^ prec) q.den
  let body :=
    if prec = 0 then natRepr m
    else
      let ip := m / 10 ^ prec
      let fp := m % 10 ^ prec
      let fs := natRepr fp
      natRepr ip ++ "." ++ String.mk (List.replicate (prec - fs.length) '0') ++ fs
  (if q < 0 then "-" else "") ++ body

/-- CPython `f"{x:.{prec}f}"`: NaN formats as the literal text `"nan"`. -/
def pyFormat (prec : ℕ) : PyFloat → String
  | .nan => "nan"
  | .val q => formatFixed prec q

/-- CPython `x != y` on floats: NaN compares unequal to everything,
itself included. -/
def pyNe (x y : PyFloat) : Bool :=
  match x, y with
  | .nan, _ => true
  | _, .nan => true
  | .val p, .val q => decide (p ≠ q)

/-- CPython `x > 0` on a float: false when `x` is NaN. -/
def pyGtZero : PyFloat → Bool
  | .nan => false
  | .val q => decide (0 < q)

/-- CPython float division: raises `ZeroDivisionError` whenever the
divisor is (non-NaN) zero, otherwise propagates NaN. -/
def pyDiv (a b : PyFloat) : Except String PyFloat :=
  match b with
  | .nan => .ok .nan
  | .val q =>
    if q = 0 then .error "ZeroDivisionError: float division by zero"
    else
      match a with
      | .nan => .ok .nan
      | .val p => .ok (.val (p / q))

/-- CPython `x * n` for a float `x` and integer literal `n`. -/
def pyMulNat (a : PyFloat) (n : ℕ) : PyFloat :=
  match a with
  | .nan => .nan
  | .val q => .val (q * n)

/-- Truncation toward zero, the behaviour of CPython `int(x)` on a
finite float: `Int.tdiv` is exactly division truncated toward zero. -/
def ratTrunc (q : ℚ) : ℤ :=
  q.num.tdiv q.den

/-- CPython `int(x)` on a float: truncates toward zero, raising
`ValueError` on NaN. -/
def pyInt : PyFloat → Except String Int
  | .nan => .error "ValueError: cannot convert float NaN to integer"
  | .val q => .ok (ratTrunc q)

/-- One constraint progress-bar computation from `update_data`:
`int(value / limit * 100) if limit > 0 else 0`. -/
def constraintBar (value limit : PyFloat) : Except String Int :=
  if pyGtZero limit then
    match pyDiv value limit with
    | .error e => .error e
    | .ok d => pyInt (pyMulNat d 100)
  else .ok 0

/-- ctypes `CoreData` (fields zero-initialised as ctypes does). -/
structure CoreData where
  core_num : Int := 0
  frequency : PyFloat := .val 0
  power : PyFloat := .val 0
  voltage : PyFloat := .val 0
  temp : PyFloat := .val 0
  c0 : PyFloat := .val 0
  cc1 : PyFloat := .val 0
  cc6 : PyFloat := .val 0
  disabled : Int := 0
  sleeping : Int := 0
deriving DecidableEq, Repr

/-- ctypes `SystemData`. -/
structure SystemData where
  cpu_name : String := ""
  codename : String := ""
  smu_fw_ver : String := ""
  cores : Int := 0
  ccds : Int := 0
  ccxs : Int := 0
  cores_per_ccx : Int := 0
  if_ver : Int := 0
  enabled_cores_count : Int := 0
deriving DecidableEq, Repr

/-- ctypes `ConstraintsData`. -/
structure ConstraintsData where
  peak_temp : PyFloat := .val 0
  soc_temp : PyFloat := .val 0
  gfx_temp : PyFloat := .val 0
  vid_value : PyFloat := .val 0
  vid_limit : PyFloat := .val 0
  ppt_value : PyFloat := .val 0
  ppt_limit : PyFloat := .val 0
  ppt_apu_value : PyFloat := .val 0
  ppt_apu_limit : PyFloat := .val 0
  tdc_value : PyFloat := .val 0
  tdc_limit : PyFloat := .val 0
  tdc_actual : PyFloat := .val 0
  tdc_soc_value : PyFloat := .val 0
  tdc_soc_limit : PyFloat := .val 0
  edc_value : PyFloat := .val 0
  edc_limit : PyFloat := .val 0
  edc_soc_value : PyFloat := .val 0
  edc_soc_limit : PyFloat := .val 0
  thm_value : PyFloat := .val 0
  thm_limit : PyFloat := .val 0
  thm_soc_value : PyFloat := .val 0
  thm_soc_limit : PyFloat := .val 0
  thm_gfx_value : PyFloat := .val 0
  thm_gfx_limit : PyFloat := .val 0
  fit_value : PyFloat := .val 0
  fit_limit : PyFloat := .val 0
deriving DecidableEq, Repr

/-- ctypes `MemoryData`. -/
structure MemoryData where
  fclk_freq : PyFloat := .val 0
  fclk_freq_eff : PyFloat := .val 0
  uclk_freq : PyFloat := .val 0
  memclk_freq : PyFloat := .val 0
  v_vddm : PyFloat := .val 0
  v_vddp : PyFloat := .val 0
  v_vddg : PyFloat := .val 0
  v_vddg_iod : PyFloat := .val 0
  v_vddg_ccd : PyFloat := .val 0
  coupled_mode : Int := 0
deriving DecidableEq, Repr

/-- ctypes `PowerData`. -/
structure PowerData where
  total_core_power : PyFloat := .val 0
  vddcr_soc_power : PyFloat := .val 0
  io_vddcr_soc_power : PyFloat := .val 0
  gmi2_vddg_power : PyFloat := .val 0
  roc_power : PyFloat := .val 0
  l3_logic_power : PyFloat := .val 0
  l3_vddm_power : PyFloat := .val 0
  vddio_mem_power : PyFloat := .val 0
  iod_vddio_mem_power : PyFloat := .val 0
  ddr_vddp_power : PyFloat := .val 0
  ddr_phy_power : PyFloat := .val 0
  vdd18_power : PyFloat := .val 0
  io_display_power : PyFloat := .val 0
  io_usb_power : PyFloat := .val 0
  socket_power : PyFloat := .val 0
  package_power : PyFloat := .val 0
  vddcr_cpu_power : PyFloat := .val 0
  soc_telemetry_voltage : PyFloat := .val 0
  soc_telemetry_current : PyFloat := .val 0
  soc_telemetry_power : PyFloat := .val 0
  cpu_telemetry_voltage : PyFloat := .val 0
  cpu_telemetry_current : PyFloat := .val 0
  cpu_telemetry_power : PyFloat := .val 0
deriving DecidableEq, Repr

/-- ctypes `GraphicsData`. -/
structure GraphicsData where
  gfx_voltage : PyFloat := .val 0
  roc_power : PyFloat := .val 0
  gfx_temp : PyFloat := .val 0
  gfx_freq : PyFloat := .val 0
  gfx_freq_eff : PyFloat := .val 0
  gfx_busy : PyFloat := .val 0
  gfx_edc_lim : PyFloat := .val 0
  gfx_edc_residency : PyFloat := .val 0
  display_count : PyFloat := .val 0
  fps : PyFloat := .val 0
  dgpu_power : PyFloat := .val 0
  dgpu_freq_target : PyFloat := .val 0
  dgpu_gfx_busy : PyFloat := .val 0
deriving DecidableEq, Repr

/-- ctypes `CalculatedStats`. -/
structure CalculatedStats where
  peak_core_frequency : PyFloat := .val 0
  peak_core_temp : PyFloat := .val 0
  peak_core_voltage : PyFloat := .val 0
  avg_core_voltage : PyFloat := .val 0
  avg_core_cc6 : PyFloat := .val 0
  total_core_power : PyFloat := .val 0
  peak_core_voltage_smu : PyFloat := .val 0
  package_cc6 : PyFloat := .val 0
deriving DecidableEq, Repr

/-- The data returned by one successful `RyzenMonitorLib.read_data`
call: the populated slice of the core buffer plus the five aggregate
records.  A failed call is modelled as `none`, standing for the
`(None, None, None, None, None, None)` tuple the Python code returns. -/
structure ReadPayload where
  cores : List CoreData
  constraints : ConstraintsData
  memory : MemoryData
  power : PowerData
  graphics : GraphicsData
  stats : CalculatedStats
deriving DecidableEq, Repr

/-- Oracle for the foreign shared library `libryzen_monitor.so`: the
return value of each entry point and the contents the library writes
into the caller-provided buffers.  `core_buffer max_cores i` is the
`i`-th entry of the core array after a `ryzen_read_data` call made with
buffer size `max_cores`. -/
structure ExternalLib where
  ryzen_init_ret : Int := 0
  ryzen_get_system_info_ret : Int := 0
  system_info : SystemData := {}
  ryzen_read_data_ret : ℕ → Int := fun _ => 0
  core_buffer : ℕ → ℕ → CoreData := fun _ _ => {}
  read_constraints : ConstraintsData := {}
  read_memory : MemoryData := {}
  read_power : PowerData := {}
  read_graphics : GraphicsData := {}
  read_stats : CalculatedStats := {}

/-- Mutable state of the Python `RyzenMonitorLib` wrapper object: the
`self.initialized` flag, plus counters recording how many times each
foreign entry point has been invoked (so "does not invoke the library"
is expressible). -/
structure LibState where
  initialized : Bool := false
  initCalls : ℕ := 0
  cleanupCalls : ℕ := 0
  sysInfoCalls : ℕ := 0
  readCalls : ℕ := 0
deriving DecidableEq, Repr

/-- `RyzenMonitorLib.init`: calls `ryzen_init`; on return value `0`
sets `self.initialized = True` and returns `True`, otherwise returns
`False`. -/
def RyzenMonitorLib.init (lib : ExternalLib) (st : LibState) : Bool × LibState :=
  let st' := { st with initCalls := st.initCalls + 1 }
  if lib.ryzen_init_ret = 0 then
    (true, { st' with initialized := true })
  else
    (false, st')

/-- `RyzenMonitorLib.cleanup`: calls `ryzen_cleanup` and clears the
flag only when `self.initialized` is set, otherwise does nothing. -/
def RyzenMonitorLib.cleanup (st : LibState) : LibState :=
  if st.initialized then
    { st with cleanupCalls := st.cleanupCalls + 1, initialized := false }
  else
    st

/-- `RyzenMonitorLib.get_system_info`: returns `None` without touching
the library when not initialized; otherwise calls
`ryzen_get_system_info` and returns the record on return value `0`. -/
def RyzenMonitorLib.get_system_info (lib : ExternalLib) (st : LibState) :
    Option SystemData × LibState :=
  if !st.initialized then
    (none, st)
  else
    let st' := { st with sysInfoCalls := st.sysInfoCalls + 1 }
    if lib.ryzen_get_system_info_ret = 0 then
      (some lib.system_info, st')
    else
      (none, st')

/-- `RyzenMonitorLib.read_data`: returns the all-`None` tuple without
touching the library when not initialized; otherwise zero-initialises a
`max_cores`-element buffer, calls `ryzen_read_data`, and on a positive
returned count slices `cores[:num_cores]` (Python slicing clamps to the
buffer length). -/
def RyzenMonitorLib.read_data (lib : ExternalLib) (st : LibState)
    (max_cores : ℕ := 32) : Option ReadPayload × LibState :=
  if !st.initialized then
    (none, st)
  else
    let buffer := (List.range max_cores).map (lib.core_buffer max_cores)
    let num := lib.ryzen_read_data_ret max_cores
    let st' := { st with readCalls := st.readCalls + 1 }
    if 0 < num then
      (some { cores := buffer.take num.toNat,
              constraints := lib.read_constraints,
              memory := lib.read_memory,
              power := lib.read_power,
              graphics := lib.read_graphics,
              stats := lib.read_stats }, st')
    else
      (none, st')

/-- One row of the core table as written by `update_data`: the eight
`QTableWidgetItem` texts of that row. -/
structure CoreRow where
  core_cell : String
  freq_cell : String
  power_cell : String
  voltage_cell : String
  temp_cell : String
  c0_cell : String
  cc1_cell : String
  cc6_cell : String
deriving DecidableEq, Repr

/-- The row `update_data` writes for one `CoreData` record, including
the `"Disabled" if core.disabled else ("Sleeping" if core.sleeping
else f"{core.frequency:.0f}")` status cell. -/
def coreRow (core : CoreData) : CoreRow :=
  { core_cell := "Core " ++ toString core.core_num,
    freq_cell :=
      if core.disabled ≠ 0 then "Disabled"
      else if core.sleeping ≠ 0 then "Sleeping"
      else pyFormat 0 core.frequency,
    power_cell := pyFormat 3 core.power,
    voltage_cell := pyFormat 3 core.voltage,
    temp_cell := pyFormat 1 core.temp,
    c0_cell := pyFormat 1 core.c0,
    cc1_cell := pyFormat 1 core.cc1,
    cc6_cell := pyFormat 1 core.cc6 }

/-- The Qt widgets `RyzenMonitorGUI.update_data` writes to: the core
table rows, the calculated-stats labels, the constraint bars/labels,
and the memory, power and graphics labels. -/
structure UIState where
  core_table_rows : List CoreRow
  peak_freq_value : String
  peak_temp_value : String
  peak_volt_value : String
  avg_volt_value : String
  avg_cc6_value : String
  total_core_power_value : String
  smu_peak_volt_value : String
  pkg_cc6_value : String
  peak_temp_con_value : String
  ppt_bar : Int
  ppt_value : String
  tdc_bar : Int
  tdc_value : String
  edc_bar : Int
  edc_value : String
  thm_bar : Int
  thm_value : String
  fclk_value : String
  fclk_eff_value : String
  uclk_value : String
  memclk_value : String
  coupled_value : String
  socket_power_value : String
  core_power_value : String
  soc_power_value : String
  gfx_clk_value : String
  gfx_temp_value : String
deriving DecidableEq, Repr

/-- The widget contents right after `init_ui`: an empty table, every
label `"--"`, bars at 0. -/
def UIState.initial : UIState :=
  { core_table_rows := []
    peak_freq_value := "--"
    peak_temp_value := "--"
    peak_volt_value := "--"
    avg_volt_value := "--"
    avg_cc6_value := "--"
    total_core_power_value := "--"
    smu_peak_volt_value := "--"
    pkg_cc6_value := "--"
    peak_temp_con_value := "--"
    ppt_bar := 0
    ppt_value := "--"
    tdc_bar := 0
    tdc_value := "--"
    edc_bar := 0
    edc_value := "--"
    thm_bar := 0
    thm_value := "--"
    fclk_value := "--"
    fclk_eff_value := "--"
    uclk_value := "--"
    memclk_value := "--"
    coupled_value := "--"
    socket_power_value := "--"
    core_power_value := "--"
    soc_power_value := "--"
    gfx_clk_value := "--"
    gfx_temp_value := "--" }

/-- The core-table block of `update_data`. -/
def setCoreTable (p : ReadPayload) (ui : UIState) : UIState :=
  { ui with core_table_rows := p.cores.map coreRow }

/-- The calculated-stats block of `update_data` (the `if stats:` guard
is always true on this path because a ctypes structure is truthy).
Only the package-CC6 label carries the self-inequality NaN check. -/
def setStats (s : CalculatedStats) (ui : UIState) : UIState :=
  { ui with
    peak_freq_value := pyFormat 0 s.peak_core_frequency ++ " MHz"
    peak_temp_value := pyFormat 1 s.peak_core_temp ++ " °C"
    peak_volt_value := pyFormat 3 s.peak_core_voltage ++ " V"
    avg_volt_value := pyFormat 3 s.avg_core_voltage ++ " V"
    avg_cc6_value := pyFormat 1 s.avg_core_cc6 ++ " %"
    total_core_power_value := pyFormat 3 s.total_core_power ++ " W"
    smu_peak_volt_value := pyFormat 3 s.peak_core_voltage_smu ++ " V"
    pkg_cc6_value :=
      if !(pyNe s.package_cc6 s.package_cc6) then
        pyFormat 1 s.package_cc6 ++ " %"
      else "--" }

/-- The constraints block of `update_data`: peak temperature label,
then for each of PPT, TDC, EDC, THM the progress bar followed by the
`value / limit` label.  `.setValue(int(...))` raises on NaN, so the
block stops (and the whole Python callback unwinds) at the first
erroring bar, keeping every widget already written. -/
def setConstraints (c : ConstraintsData) (ui : UIState) : UIState × Option String :=
  let ui := { ui with peak_temp_con_value := pyFormat 1 c.peak_temp ++ " °C" }
  match constraintBar c.ppt_value c.ppt_limit with
  | .error e => (ui, some e)
  | .ok v =>
    let ui := { ui with ppt_bar := v }
    let ui := { ui with
      ppt_value := pyFormat 1 c.ppt_value ++ " / " ++ pyFormat 0 c.ppt_limit ++ " W" }
    match constraintBar c.tdc_value c.tdc_limit with
    | .error e => (ui, some e)
    | .ok v =>
      let ui := { ui with tdc_bar := v }
      let ui := { ui with
        tdc_value := pyFormat 1 c.tdc_value ++ " / " ++ pyFormat 0 c.tdc_limit ++ " A" }
      match constraintBar c.edc_value c.edc_limit with
      | .error e => (ui, some e)
      | .ok v =>
        let ui := { ui with edc_bar := v }
        let ui := { ui with
          edc_value := pyFormat 1 c.edc_value ++ " / " ++ pyFormat 0 c.edc_limit ++ " A" }
        match constraintBar c.thm_value c.thm_limit with
        | .error e => (ui, some e)
        | .ok v =>
          let ui := { ui with thm_bar := v }
          ({ ui with
            thm_value := pyFormat 1 c.thm_value ++ " / " ++ pyFormat 0 c.thm_limit ++ " C" },
           none)

/-- The memory block of `update_data`. -/
def setMemory (m : MemoryData) (ui : UIState) : UIState :=
  { ui with
    fclk_value := pyFormat 0 m.fclk_freq ++ " MHz"
    fclk_eff_value := pyFormat 0 m.fclk_freq_eff ++ " MHz"
    uclk_value := pyFormat 0 m.uclk_freq ++ " MHz"
    memclk_value := pyFormat 0 m.memclk_freq ++ " MHz"
    coupled_value := if m.coupled_mode ≠ 0 then "ON" else "OFF" }

/-- The power block of `update_data`. -/
def setPower (p : PowerData) (ui : UIState) : UIState :=
  { ui with
    socket_power_value := pyFormat 3 p.socket_power ++ " W"
    core_power_value := pyFormat 3 p.total_core_power ++ " W"
    soc_power_value := pyFormat 3 p.vddcr_soc_power ++ " W" }

/-- The graphics block of `update_data`. -/
def setGraphics (g : GraphicsData) (ui : UIState) : UIState :=
  { ui with
    gfx_clk_value := pyFormat 0 g.gfx_freq ++ " MHz"
    gfx_temp_value := pyFormat 1 g.gfx_temp ++ " °C" }

/-- `RyzenMonitorGUI.update_data`, one timer tick: reads the tuple
returned by `RyzenMonitorLib.read_data`; `if not cores: return` leaves
every widget untouched both for the all-`None` tuple and for an empty
core list.  Otherwise the blocks run in source order; the second
component carries the uncaught Python exception text, if any. -/
def update_data (ui : UIState) (r : Option ReadPayload) : UIState × Option String :=
  match r with
  | none => (ui, none)
  | some p =>
    if p.cores.isEmpty then (ui, none)
    else
      let ui1 := setCoreTable p ui
      let ui2 := setStats p.stats ui1
      match setConstraints p.constraints ui2 with
      | (ui3, some e) => (ui3, some e)
      | (ui3, none) =>
        let ui4 := setMemory p.memory ui3
        let ui5 := setPower p.power ui4
        let ui6 := setGraphics p.graphics ui5
        (ui6, none)

/-- A snapshot with 8 reported cores, 6 enabled and 2 disabled (core 7
also flagged sleeping), core 0 at 4541.2 MHz — the spec's core-table
scenario. -/
def samplePayload : ReadPayload :=
  { cores := [
      { core_num := 0, frequency := .val (mkRat 45412 10) },
      { core_num := 1 }, { core_num := 2 }, { core_num := 3 },
      { core_num := 4 }, { core_num := 5 },
      { core_num := 6, disabled := 1 },
      { core_num := 7, disabled := 1, sleeping := 1 } ]
    constraints := {}
    memory := {}
    power := {}
    graphics := {}
    stats := {} }

/-- A snapshot with `ppt_value = 45.2` and `ppt_limit = 0` — the spec's
zero-limit scenario. -/
def pptScenario : ReadPayload :=
  { cores := [{}]
    constraints := { ppt_value := .val (mkRat 226 5), ppt_limit := .val 0 }
    memory := {}
    power := {}
    graphics := {}
    stats := {} }

/-- A snapshot whose eight calculated-stats fields are all NaN. -/
def nanStatsPayload : ReadPayload :=
  { cores := [{}]
    constraints := {}
    memory := {}
    power := {}
    graphics := {}
    stats := { peak_core_frequency := .nan, peak_core_temp := .nan,
               peak_core_voltage := .nan, avg_core_voltage := .nan,
               avg_core_cc6 := .nan, total_core_power := .nan,
               peak_core_voltage_smu := .nan, package_cc6 := .nan } }

/-- A snapshot with `ppt_value = NaN` while `ppt_limit = 100` is
positive: `int(nan / 100 * 100)` raises in CPython. -/
def crashPayload : ReadPayload :=
  { cores := [{}]
    constraints := { ppt_value := .nan, ppt_limit := .val 100 }
    memory := {}
    power := {}
    graphics := {}
    stats := {} }

/-- An initialized wrapper state. -/
def initSt : LibState :=
  { initialized := true }

/-- An oracle whose read call reports 8 populated cores. -/
def eightLib : ExternalLib :=
  { ryzen_read_data_ret := fun _ => 8 }

/-- An oracle whose read call reports 100 populated cores — more than
any buffer the wrapper passes. -/
def overLib : ExternalLib :=
  { ryzen_read_data_ret := fun _ => 100 }

/-- The payload `read_data` produces for `overLib` with a 4-entry
buffer: the slice clamps to the 4 zero-initialised buffer entries. -/
def overPayload : ReadPayload :=
  { cores := [{}, {}, {}, {}]
    constraints := {}
    memory := {}
    power := {}
    graphics := {}
    stats := {} }

/-- The constraints block never touches the core table or any
calculated-stats label, no matter where it stops. -/
lemma setConstraints_fst_preserve (c : ConstraintsData) (ui : UIState) :
    (setConstraints c ui).1.core_table_rows = ui.core_table_rows ∧
    (setConstraints c ui).1.peak_freq_value = ui.peak_freq_value ∧
    (setConstraints c ui).1.peak_temp_value = ui.peak_temp_value ∧
    (setConstraints c ui).1.peak_volt_value = ui.peak_volt_value ∧
    (setConstraints c ui).1.avg_volt_value = ui.avg_volt_value ∧
    (setConstraints c ui).1.avg_cc6_value = ui.avg_cc6_value ∧
    (setConstraints c ui).1.total_core_power_value = ui.total_core_power_value ∧
    (setConstraints c ui).1.smu_peak_volt_value = ui.smu_peak_volt_value ∧
    (setConstraints c ui).1.pkg_cc6_value = ui.pkg_cc6_value := by
  unfold setConstraints
  repeat' split
  all_goals simp

/-- On an accepted snapshot, the widgets written by the core-table and
stats blocks of `update_data` end up with exactly the formatted values,
regardless of whether a later constraint bar raises. -/
lemma update_data_fields (ui : UIState) (p : ReadPayload) (h : p.cores.isEmpty = false) :
    (update_data ui (some p)).1.core_table_rows = p.cores.map coreRow ∧
    (update_data ui (some p)).1.peak_freq_value = pyFormat 0 p.stats.peak_core_frequency ++ " MHz" ∧
    (update_data ui (some p)).1.peak_temp_value = pyFormat 1 p.stats.peak_core_temp ++ " °C" ∧
    (update_data ui (some p)).1.peak_volt_value = pyFormat 3 p.stats.peak_core_voltage ++ " V" ∧
    (update_data ui (some p)).1.avg_volt_value = pyFormat 3 p.stats.avg_core_voltage ++ " V" ∧
    (update_data ui (some p)).1.avg_cc6_value = pyFormat 1 p.stats.avg_core_cc6 ++ " %" ∧
    (update_data ui (some p)).1.total_core_power_value = pyFormat 3 p.stats.total_core_power ++ " W" ∧
    (update_data ui (some p)).1.smu_peak_volt_value = pyFormat 3 p.stats.peak_core_voltage_smu ++ " V" ∧
    (update_data ui (some p)).1.pkg_cc6_value =
      (if !(pyNe p.stats.package_cc6 p.stats.package_cc6) then
        pyFormat 1 p.stats.package_cc6 ++ " %" else "--") := by
  have hp := setConstraints_fst_preserve p.constraints (setStats p.stats (setCoreTable p ui))
  simp only [update_data, h, Bool.false_eq_true, if_false]
  rcases hc : setConstraints p.constraints (setStats p.stats (setCoreTable p ui)) with ⟨ui3, e⟩
  rw [hc] at hp
  cases e <;>
    simp_all [setMemory, setPower, setGraphics, setStats, setCoreTable]

/-- Round-half-even of `a / d` is within half a unit of `a / d`. -/
lemma rheNatDiv_nearest (a d : ℕ) (hd : 0 < d) :
    |((rheNatDiv a d : ℕ) : ℚ) - (a : ℚ) / d| ≤ 1 / 2 := by
  have hdq : (0 : ℚ) < d := by exact_mod_cast hd
  have hmod : a % d < d := Nat.mod_lt _ hd
  have hkey : (a : ℚ) = d * (a / d : ℕ) + (a % d : ℕ) := by
    exact_mod_cast (Nat.div_add_mod a d).symm
  have hae : (a : ℚ) / d = ((a / d : ℕ) : ℚ) + ((a % d : ℕ) : ℚ) / d := by
    rw [hkey]
    field_simp
    ring
  have hrd0 : (0 : ℚ) ≤ ((a % d : ℕ) : ℚ) / d := by positivity
  have hrd1 : ((a % d : ℕ) : ℚ) / d < 1 := by
    rw [div_lt_one hdq]
    exact_mod_cast hmod
  unfold rheNatDiv
  split
  · rename_i h1
    have h1q : (d : ℚ) < 2 * ((a % d : ℕ) : ℚ) := by exact_mod_cast h1
    have h1r : (1 : ℚ) / 2 < ((a % d : ℕ) : ℚ) / d := by
      rw [div_lt_div_iff₀ (by norm_num) hdq]
      linarith
    rw [hae, abs_le]
    push_cast
    constructor <;> linarith
  · split
    · rename_i h1 h2
      have h2q : 2 * ((a % d : ℕ) : ℚ) < (d : ℚ) := by exact_mod_cast h2
      have h2r : ((a % d : ℕ) : ℚ) / d < 1 / 2 := by
        rw [div_lt_div_iff₀ hdq (by norm_num)]
        linarith
      rw [hae, abs_le]
      constructor <;> linarith
    · rename_i h1 h2
      have heq : 2 * (a % d) = d := by omega
      have heqq : 2 * ((a % d : ℕ) : ℚ) = (d : ℚ) := by exact_mod_cast heq
      have h3r : ((a % d : ℕ) : ℚ) / d = 1 / 2 := by
        rw [div_eq_div_iff hdq.ne' (by norm_num : (2 : ℚ) ≠ 0)]
        linarith
      split <;> (rw [hae, abs_le]; push_cast; constructor <;> linarith)

/-- The fraction `q.num.natAbs / q.den` is the absolute value of `q`. -/
lemma abs_eq_natAbs_div_den (q : ℚ) :
    ((q.num.natAbs : ℚ)) / (q.den : ℚ) = |q| := by
  rw [Int.cast_natAbs, Int.cast_abs]
  rw [← abs_of_pos (show (0 : ℚ) < (q.den : ℚ) by exact_mod_cast q.pos), ← abs_div]
  rw [Rat.num_div_den]

/-- `f"{q:.0f}"` renders a sign and the digits of a natural number that
is within half a unit of `q` (with the sign applied). -/
lemma formatFixed_zero_nearest (q : ℚ) :
    ∃ m : ℕ, formatFixed 0 q = (if q < 0 then "-" else "") ++ natRepr m ∧
      |(if q < 0 then -(m : ℚ) else (m : ℚ)) - q| ≤ 1 / 2 := by
  refine ⟨rheNatDiv (q.num.natAbs * 10 ^ 0) q.den, ?_, ?_⟩
  · unfold formatFixed
    simp
  · have h := rheNatDiv_nearest (q.num.natAbs * 10 ^ 0) q.den q.pos
    rw [pow_zero, mul_one] at h
    rw [abs_eq_natAbs_div_den] at h
    rcases lt_or_ge q 0 with hq | hq
    · rw [if_pos hq]
      rw [abs_of_neg hq] at h
      rw [pow_zero, mul_one]
      have hne : -((rheNatDiv q.num.natAbs q.den : ℕ) : ℚ) - q =
          -(((rheNatDiv q.num.natAbs q.den : ℕ) : ℚ) - -q) := by ring
      rw [hne, abs_neg]
      exact h
    · rw [if_neg (not_lt.mpr hq)]
      rw [abs_of_nonneg hq] at h
      rw [pow_zero, mul_one]
      exact h

/-- Every character emitted by `natReprAux` is a decimal digit. -/
lemma natReprAux_digit (fuel : ℕ) :
    ∀ n c, c ∈ natReprAux fuel n → ∃ k, k < 10 ∧ c = Nat.digitChar k := by
  induction fuel with
  | zero => intro n c hc; simp [natReprAux] at hc
  | succ f ih =>
    intro n c hc
    unfold natReprAux at hc
    split at hc
    · rename_i h
      simp at hc
      exact ⟨n, h, hc⟩
    · rcases List.mem_append.mp hc with h1 | h1
      · exact ih _ _ h1
      · simp at h1
        exact ⟨n % 10, Nat.mod_lt _ (by norm_num), h1⟩

/-- No decimal digit character is the letter of "Sleeping". -/
lemma digitChar_lt_ten_ne_S : ∀ k, k < 10 → Nat.digitChar k ≠ 'S' := by decide

/-- A `:.0f`-formatted float is never the literal text `"Sleeping"`. -/
lemma pyFormat_zero_ne_sleeping (x : PyFloat) : pyFormat 0 x ≠ "Sleeping" := by
  cases x with
  | nan => decide
  | val q =>
    intro h
    have hmem : 'S' ∈ (formatFixed 0 q).data := by
      rw [show pyFormat 0 (.val q) = formatFixed 0 q from rfl] at h
      rw [h]
      decide
    unfold formatFixed at hmem
    simp only [if_pos rfl, String.data_append] at hmem
    rcases List.mem_append.mp hmem with h1 | h1
    · split at h1 <;> simp at h1
    · obtain ⟨k, hk, hkc⟩ := natReprAux_digit _ _ _ h1
      exact digitChar_lt_ten_ne_S k hk hkc.symm

/-- C1: for every snapshot accepted by `update_data` (non-empty core
list, i.e. positive reported count), the rendered core table has
exactly one row per returned core record; each row's frequency cell is
`"Disabled"` when the disabled flag is set, else `"Sleeping"` when the
sleeping flag is set, and otherwise the core's numeric frequency
rounded to the nearest whole unit (rendered as sign plus digits of a
natural number within half a unit of the frequency). -/
theorem core_table_rows_match_snapshot (ui : UIState) (p : ReadPayload)
    (h : p.cores ≠ []) :
    (update_data ui (some p)).1.core_table_rows.length = p.cores.length ∧
    ∀ (i : ℕ) (c : CoreData), p.cores[i]? = some c →
      (update_data ui (some p)).1.core_table_rows[i]? = some (coreRow c) ∧
      (coreRow c).freq_cell =
        (if c.disabled ≠ 0 then "Disabled"
         else if c.sleeping ≠ 0 then "Sleeping"
         else pyFormat 0 c.frequency) ∧
      ∀ q, c.disabled = 0 → c.sleeping = 0 → c.frequency = .val q →
        ∃ m : ℕ, (coreRow c).freq_cell = (if q < 0 then "-" else "") ++ natRepr m ∧
          |(if q < 0 then -(m : ℚ) else (m : ℚ)) - q| ≤ 1 / 2 := by
  have hne : p.cores.isEmpty = false := by simpa [List.isEmpty_iff] using h
  have hrows := (update_data_fields ui p hne).1
  refine ⟨by rw [hrows]; simp, ?_⟩
  intro i c hic
  refine ⟨by rw [hrows]; simp [List.getElem?_map, hic], rfl, ?_⟩
  intro q hd hs hf
  have hn := formatFixed_zero_nearest q
  simpa [coreRow, hd, hs, hf, pyFormat] using hn

/-- C1 witness: the 8-core scenario yields 8 rows, and the disabled
core 6 shows `"Disabled"` in its row. -/
theorem core_table_rows_match_snapshot_witness :
    (update_data UIState.initial (some samplePayload)).1.core_table_rows.length =
      samplePayload.cores.length ∧
    (update_data UIState.initial (some samplePayload)).1.core_table_rows[6]? =
      some (coreRow { core_num := 6, disabled := 1 }) :=
  ⟨(core_table_rows_match_snapshot UIState.initial samplePayload (by decide)).1,
   ((core_table_rows_match_snapshot UIState.initial samplePayload (by decide)).2 6
      { core_num := 6, disabled := 1 } (by decide)).1⟩

/-- C2: whenever a constraint limit is a non-NaN value `≤ 0`, the bar
computation returns 0 without ever evaluating the division; in the
`ppt_limit = 0`, `ppt_value = 45.2` scenario the PPT bar is 0 and the
label reads `"45.2 / 0 W"`. -/
theorem zero_limit_bar_shows_zero :
    (∀ value : PyFloat, ∀ q : ℚ, q ≤ 0 → constraintBar value (.val q) = .ok 0) ∧
    (update_data UIState.initial (some pptScenario)).1.ppt_bar = 0 ∧
    (update_data UIState.initial (some pptScenario)).1.ppt_value = "45.2 / 0 W" := by
  refine ⟨?_, by decide, by decide⟩
  intro v q hq
  have hg : pyGtZero (.val q) = false := by
    simp only [pyGtZero, decide_eq_false_iff_not]
    exact not_lt.mpr hq
  unfold constraintBar
  rw [hg]
  simp

/-- C2 witness: the guard at `value = 45.2`, `limit = 0`. -/
theorem zero_limit_bar_shows_zero_witness :
    constraintBar (.val (mkRat 226 5)) (.val 0) = .ok 0 :=
  zero_limit_bar_shows_zero.1 (.val (mkRat 226 5)) 0 le_rfl

/-- C3: when the library's read reports a non-positive core count, the
poll cycle leaves the entire widget state unchanged and raises
nothing. -/
theorem failed_read_preserves_ui (lib : ExternalLib) (st : LibState) (ui : UIState)
    (h : lib.ryzen_read_data_ret 32 ≤ 0) :
    update_data ui (RyzenMonitorLib.read_data lib st 32).1 = (ui, none) := by
  unfold RyzenMonitorLib.read_data
  by_cases hi : st.initialized
  · simp [hi, not_lt.mpr h, update_data]
  · simp [hi, update_data]

/-- C3 witness: a zero-count read against the initial widget state. -/
theorem failed_read_preserves_ui_witness :
    update_data UIState.initial (RyzenMonitorLib.read_data {} initSt 32).1 =
      (UIState.initial, none) :=
  failed_read_preserves_ui {} initSt UIState.initial (by decide)

/-- C4 counterexample: with a NaN peak core frequency the display shows
the literal `"nan MHz"`, not the `"--"` placeholder the claim asserts
for all eight aggregate fields. -/
theorem nan_aggregate_renders_nan_token :
    (update_data UIState.initial (some nanStatsPayload)).1.peak_freq_value = "nan MHz" ∧
    "nan MHz" ≠ "--" :=
  ⟨by decide, by decide⟩

/-- C4 (amended): only the package-CC6 aggregate carries the NaN guard:
it shows `"--"` exactly when NaN and its formatted value otherwise; the
other seven aggregate fields render a NaN value as the literal `"nan"`
token inside their unit suffix. -/
theorem only_package_cc6_nan_guarded (ui : UIState) (p : ReadPayload)
    (h : p.cores ≠ []) :
    (p.stats.package_cc6 = .nan →
      (update_data ui (some p)).1.pkg_cc6_value = "--") ∧
    (∀ q, p.stats.package_cc6 = .val q →
      (update_data ui (some p)).1.pkg_cc6_value = formatFixed 1 q ++ " %") ∧
    (p.stats.peak_core_frequency = .nan →
      (update_data ui (some p)).1.peak_freq_value = "nan MHz") ∧
    (p.stats.peak_core_temp = .nan →
      (update_data ui (some p)).1.peak_temp_value = "nan °C") ∧
    (p.stats.peak_core_voltage = .nan →
      (update_data ui (some p)).1.peak_volt_value = "nan V") ∧
    (p.stats.avg_core_voltage = .nan →
      (update_data ui (some p)).1.avg_volt_value = "nan V") ∧
    (p.stats.avg_core_cc6 = .nan →
      (update_data ui (some p)).1.avg_cc6_value = "nan %") ∧
    (p.stats.total_core_power = .nan →
      (update_data ui (some p)).1.total_core_power_value = "nan W") ∧
    (p.stats.peak_core_voltage_smu = .nan →
      (update_data ui (some p)).1.smu_peak_volt_value = "nan V") := by
  have hne : p.cores.isEmpty = false := by simpa [List.isEmpty_iff] using h
  obtain ⟨-, h1, h2, h3, h4, h5, h6, h7, h8⟩ := update_data_fields ui p hne
  refine ⟨fun hx => ?_, fun q hx => ?_, fun hx => ?_, fun hx => ?_, fun hx => ?_,
    fun hx => ?_, fun hx => ?_, fun hx => ?_, fun hx => ?_⟩
  · rw [h8, hx]; simp [pyNe]
  · rw [h8, hx]; simp [pyNe, pyFormat]
  · rw [h1, hx]; decide
  · rw [h2, hx]; decide
  · rw [h3, hx]; decide
  · rw [h4, hx]; decide
  · rw [h5, hx]; decide
  · rw [h6, hx]; decide
  · rw [h7, hx]; decide

/-- C4 (amended) witness: with every stat NaN, package CC6 shows
`"--"` while peak temperature shows `"nan °C"`. -/
theorem only_package_cc6_nan_guarded_witness :
    (update_data UIState.initial (some nanStatsPayload)).1.pkg_cc6_value = "--" ∧
    (update_data UIState.initial (some nanStatsPayload)).1.peak_temp_value = "nan °C" :=
  ⟨(only_package_cc6_nan_guarded UIState.initial nanStatsPayload (by decide)).1 rfl,
   (only_package_cc6_nan_guarded UIState.initial nanStatsPayload (by decide)).2.2.2.1 rfl⟩

/-- C5: contrary to the claim that the display routine never crashes on
NaN, a snapshot with `ppt_value = NaN` and positive `ppt_limit = 100`
makes `update_data` raise `ValueError` at the `int(...)` conversion of
the PPT bar, aborting the refresh mid-way. -/
theorem nan_constraint_value_raises_valueerror :
    (update_data UIState.initial (some crashPayload)).2 =
      some "ValueError: cannot convert float NaN to integer" := by
  decide

/-- C6: from an initialized state `cleanup` invokes the library's
cleanup exactly once and a second call is a no-op; on a
never-initialized state it invokes nothing at all. -/
theorem cleanup_idempotent (st : LibState) :
    (st.initialized = true →
      RyzenMonitorLib.cleanup (RyzenMonitorLib.cleanup st) = RyzenMonitorLib.cleanup st ∧
      (RyzenMonitorLib.cleanup st).cleanupCalls = st.cleanupCalls + 1) ∧
    (st.initialized = false → RyzenMonitorLib.cleanup st = st) := by
  unfold RyzenMonitorLib.cleanup
  constructor
  · intro h
    simp [h]
  · intro h
    simp [h]

/-- C6 witness: both branches at concrete states. -/
theorem cleanup_idempotent_witness :
    RyzenMonitorLib.cleanup (RyzenMonitorLib.cleanup initSt) = RyzenMonitorLib.cleanup initSt ∧
    (RyzenMonitorLib.cleanup initSt).cleanupCalls = initSt.cleanupCalls + 1 ∧
    RyzenMonitorLib.cleanup {} = ({} : LibState) :=
  ⟨((cleanup_idempotent initSt).1 rfl).1, ((cleanup_idempotent initSt).1 rfl).2,
   (cleanup_idempotent {}).2 rfl⟩

/-- C7: on an initialized reader, a reported count `n` with
`0 < n ≤ maxCores` yields exactly `n` core records together with the
five aggregate records, while a count `≤ 0` yields the all-`None`
failure value. -/
theorem read_data_returns_count_or_failure (lib : ExternalLib) (st : LibState)
    (max_cores : ℕ) (hinit : st.initialized = true) :
    (0 < lib.ryzen_read_data_ret max_cores →
      lib.ryzen_read_data_ret max_cores ≤ (max_cores : ℤ) →
      ∃ p, (RyzenMonitorLib.read_data lib st max_cores).1 = some p ∧
        p.cores.length = (lib.ryzen_read_data_ret max_cores).toNat ∧
        p.constraints = lib.read_constraints ∧
        p.memory = lib.read_memory ∧
        p.power = lib.read_power ∧
        p.graphics = lib.read_graphics ∧
        p.stats = lib.read_stats) ∧
    (lib.ryzen_read_data_ret max_cores ≤ 0 →
      (RyzenMonitorLib.read_data lib st max_cores).1 = none) := by
  unfold RyzenMonitorLib.read_data
  constructor
  · intro hpos hle
    simp only [hinit, Bool.not_true, Bool.false_eq_true, if_false, if_pos hpos]
    refine ⟨_, rfl, ?_, rfl, rfl, rfl, rfl, rfl⟩
    simp only [List.length_take, List.length_map, List.length_range]
    have hto : (lib.ryzen_read_data_ret max_cores).toNat ≤ max_cores := by
      rw [Int.toNat_le]
      exact_mod_cast hle
    omega
  · intro hneg
    simp [hinit, not_lt.mpr hneg]

/-- C7 witness: a reported count of 8 into a 32-entry buffer yields
exactly 8 records. -/
theorem read_data_returns_count_or_failure_witness :
    ∃ p, (RyzenMonitorLib.read_data eightLib initSt 32).1 = some p ∧
      p.cores.length = 8 := by
  obtain ⟨p, h1, h2, -⟩ :=
    (read_data_returns_count_or_failure eightLib initSt 32 rfl).1 (by decide) (by decide)
  exact ⟨p, h1, by simpa using h2⟩

/-- C8: with the initialized flag false, `read_data` and
`get_system_info` return the failure value with the wrapper state (and
hence the foreign-call counters) untouched, and `init` sets the flag
exactly when `ryzen_init` returns 0. -/
theorem operations_require_initialized (lib : ExternalLib) (st : LibState)
    (h : st.initialized = false) :
    RyzenMonitorLib.read_data lib st 32 = (none, st) ∧
    RyzenMonitorLib.get_system_info lib st = (none, st) ∧
    ((RyzenMonitorLib.init lib st).2.initialized = true ↔ lib.ryzen_init_ret = 0) := by
  refine ⟨?_, ?_, ?_⟩
  · simp [RyzenMonitorLib.read_data, h]
  · simp [RyzenMonitorLib.get_system_info, h]
  · unfold RyzenMonitorLib.init
    split
    · rename_i h0
      simp [h0]
    · rename_i h0
      simp [h, h0]

/-- C8 witness: the fresh wrapper state with a default oracle. -/
theorem operations_require_initialized_witness :
    RyzenMonitorLib.read_data {} {} 32 = (none, ({} : LibState)) ∧
    RyzenMonitorLib.get_system_info {} {} = (none, ({} : LibState)) ∧
    ((RyzenMonitorLib.init {} {}).2.initialized = true ↔
      ({} : ExternalLib).ryzen_init_ret = 0) :=
  operations_require_initialized {} {} rfl

/-- C9: the disabled flag takes precedence — any core with the disabled
flag set shows `"Disabled"`, and `"Sleeping"` appears exactly when the
sleeping flag is set and the disabled flag is not. -/
theorem disabled_takes_precedence (c : CoreData) :
    (c.disabled ≠ 0 → (coreRow c).freq_cell = "Disabled") ∧
    ((coreRow c).freq_cell = "Sleeping" ↔ c.sleeping ≠ 0 ∧ c.disabled = 0) := by
  constructor
  · intro hd
    simp [coreRow, hd]
  · constructor
    · intro h
      by_cases hd : c.disabled = 0
      · by_cases hs : c.sleeping = 0
        · exfalso
          simp [coreRow, hd, hs] at h
          exact pyFormat_zero_ne_sleeping c.frequency h
        · exact ⟨hs, hd⟩
      · exfalso
        have hcell : (coreRow c).freq_cell = "Disabled" := by simp [coreRow, hd]
        rw [hcell] at h
        exact absurd h (by decide)
    · rintro ⟨hs, hd⟩
      simp [coreRow, hd, hs]

/-- C9 witness: a core with both flags set shows `"Disabled"`, and the
`"Sleeping"` characterisation at a sleeping-only core. -/
theorem disabled_takes_precedence_witness :
    (coreRow { core_num := 7, disabled := 1, sleeping := 1 }).freq_cell = "Disabled" ∧
    ((coreRow { core_num := 9, sleeping := 1 }).freq_cell = "Sleeping" ↔
      ((1 : Int) ≠ 0 ∧ (0 : Int) = 0)) :=
  ⟨(disabled_takes_precedence _).1 (by decide), (disabled_takes_precedence _).2⟩

/-- C10: whatever count the library reports, a successful `read_data`
never returns more core records than the buffer size `max_cores` — the
Python slice `cores[:num_cores]` clamps to the buffer. -/
theorem read_data_truncates_to_buffer (lib : ExternalLib) (st : LibState)
    (max_cores : ℕ) (p : ReadPayload)
    (h : (RyzenMonitorLib.read_data lib st max_cores).1 = some p) :
    p.cores.length ≤ max_cores := by
  unfold RyzenMonitorLib.read_data at h
  split at h
  · simp at h
  · dsimp only at h
    split at h
    · simp at h
      subst h
      simp only [List.length_take, List.length_map, List.length_range]
      omega
    · simp at h

/-- C10 witness: a reported count of 100 against a 4-entry buffer
yields 4 records. -/
theorem read_data_truncates_to_buffer_witness :
    (RyzenMonitorLib.read_data overLib initSt 4).1 = some overPayload ∧
    overPayload.cores.length ≤ 4 :=
  ⟨by decide, read_data_truncates_to_buffer overLib initSt 4 overPayload (by decide)⟩
